import Mathlib

/-!
Shallow embedding of the DoctorGPT single-page chat application
(`src/App.jsx`): the data model (messages, pending files, request parts),
the payload construction of `submitToAI`, the `send` handler, the
`handleImages` file filter, and the module-level client setup.

External effects are made explicit: the generative-model service is a
parameter `api : List ReqPart → Except String String` (an `Except.error`
carries the raw error value of a thrown/rejected call), and `send`
additionally returns the list of requests it dispatched, so that
"no external call occurs" is a statement about that list.
-/

/-- Message author: the `role` field of a transcript entry (`"user"` / `"bot"`). -/
inductive Role where
  | user
  | bot
deriving DecidableEq, Repr

/-- A selected file, as the DOM hands it to the app: its declared media
type (`File.type`), its size in bytes (`File.size`), and its content bytes
(what `FileReader.readAsDataURL` encodes). -/
structure DFile where
  type : String
  size : Nat
  bytes : List Nat
deriving DecidableEq, Repr

/-- A transcript entry: `{ role, text, images }` from `App.jsx`. Bot
entries are built without an `images` field in the source; they are
embedded with `images = []`. -/
structure Message where
  role : Role
  text : String
  images : List DFile
deriving DecidableEq, Repr

/-- One part of the request payload handed to `model.generateContent`:
either a text part or an inline-binary part `{ inlineData: { data, mimeType } }`. -/
inductive ReqPart where
  | text (s : String)
  | inlineData (data : String) (mimeType : String)
deriving DecidableEq, Repr

/-- Whether a payload part is the inline-binary kind. -/
def ReqPart.isInline : ReqPart → Bool
  | ReqPart.inlineData _ _ => true
  | ReqPart.text _ => false

/-- The base64 alphabet. -/
def base64Chars : List Char :=
  "ABCDEFGHIJKLMNOPQRSTUVWXYZabcdefghijklmnopqrstuvwxyz0123456789+/".toList

/-- The base64 digit for a 6-bit value. -/
def b64Char (n : Nat) : Char := base64Chars.getD n 'A'

/-- Standard base64 of a byte sequence, with `=` padding — the encoding
`FileReader.readAsDataURL` produces after its `data:<mime>;base64,` header. -/
def base64Encode : List Nat → String
  | [] => ""
  | [b1] =>
      String.mk [b64Char (b1 * 65536 / 262144 % 64),
                 b64Char (b1 * 65536 / 4096 % 64)] ++ "=="
  | [b1, b2] =>
      String.mk [b64Char ((b1 * 65536 + b2 * 256) / 262144 % 64),
                 b64Char ((b1 * 65536 + b2 * 256) / 4096 % 64),
                 b64Char ((b1 * 65536 + b2 * 256) / 64 % 64)] ++ "="
  | b1 :: b2 :: b3 :: rest =>
      String.mk [b64Char ((b1 * 65536 + b2 * 256 + b3) / 262144 % 64),
                 b64Char ((b1 * 65536 + b2 * 256 + b3) / 4096 % 64),
                 b64Char ((b1 * 65536 + b2 * 256 + b3) / 64 % 64),
                 b64Char ((b1 * 65536 + b2 * 256 + b3) % 64)] ++ base64Encode rest

/-- `fileToBase64` from `App.jsx`: resolves to the base64 payload of the
file's data URL (the portion after the comma). -/
def fileToBase64 (f : DFile) : String := base64Encode f.bytes

/-- JavaScript `String.prototype.trim`: strip whitespace from both ends. -/
def jsTrim (s : String) : String :=
  String.mk (((s.toList.dropWhile Char.isWhitespace).reverse.dropWhile
      Char.isWhitespace).reverse)

/-- The fixed instruction preamble of the template literal in `submitToAI`,
up to and including `User message:` and its newline. -/
def promptIntro : String :=
  "\nYou are DoctorGPT, a helpful medical assistant.\n\nYour responsibilities:\n- Explain medical information in simple, clear language\n- Be calm, supportive, and professional\n- You may give general medical guidance and explanations\n- Do NOT claim to replace a licensed doctor\n\nIf the user provides ONLY text:\n- Answer health questions clearly\n- Give general advice and possible causes\n- Encourage consulting a doctor when appropriate\n\nIf the user provides a prescription image:\n- Identify medicine names if visible\n- Explain what each medicine is commonly used for\n- Mention dosage ONLY if clearly readable\n- Mention common side effects briefly\n- Do NOT guess unclear information\n\nAlways end with a short disclaimer:\n\"This is for informational purposes only and not a medical diagnosis.\"\n\nUser message:\n"

/-- The interpolation of the template literal, `text` or-else the
placeholder: JavaScript `||` takes the right operand exactly when `text`
is the empty string (the only falsy string). -/
def userSegment (text : String) : String :=
  if text = "" then "Prescription uploaded" else text

/-- The full text part of the request: preamble, user segment, trailing
newline, exactly as the template literal concatenates them. -/
def promptText (text : String) : String :=
  promptIntro ++ userSegment text ++ "\n"

/-- The pure payload construction of `submitToAI`: a text part always, and
an inline-binary part of the FIRST pending image (only `images[0]` is read)
when the image list is non-empty. -/
def buildParts (text : String) (images : List DFile) : List ReqPart :=
  match images with
  | [] => [ReqPart.text (promptText text)]
  | img :: _ =>
      [ReqPart.text (promptText text),
       ReqPart.inlineData (fileToBase64 img) img.type]

/-- The reactive state of `App`: transcript, pending input text, pending
image list, busy flag. -/
structure AppState where
  messages : List Message
  input : String
  images : List DFile
  loading : Bool
deriving DecidableEq, Repr

/-- The failure text appended by the `catch` branch of `send` (line 117 of
`App.jsx`). -/
def failureMessage : String := "❌ Something went wrong. Please try again."

/-- The `send` handler of `App.jsx`, with the external call abstracted as
`api`. Returns the final state together with the list of requests
dispatched to the external service (empty on the validation no-op).
Mirrors the source: early return when the trimmed input is empty and no
image is pending; otherwise append the user message, clear input and
images, raise the busy flag, call `submitToAI`, append the reply (or the
fixed failure message on error), and clear the busy flag in `finally`. -/
def send (api : List ReqPart → Except String String) (s : AppState) :
    AppState × List (List ReqPart) :=
  if jsTrim s.input = "" ∧ s.images = [] then (s, [])
  else
    let userMessage : Message :=
      { role := Role.user, text := s.input, images := s.images }
    let s1 : AppState :=
      { s with messages := s.messages ++ [userMessage],
               input := "", images := [], loading := true }
    let req := buildParts userMessage.text userMessage.images
    match api req with
    | Except.ok reply =>
        ({ s1 with
            messages := s1.messages ++
              [{ role := Role.bot, text := reply, images := [] }],
            loading := false }, [req])
    | Except.error _ =>
        ({ s1 with
            messages := s1.messages ++
              [{ role := Role.bot, text := failureMessage, images := [] }],
            loading := false }, [req])

/-- The same handler as a state trace: one entry per state update of the
source (`setMessages` user append; `setInput`; `setImages`; `setLoading
true`; `setMessages` bot append; `setLoading false` in `finally`). Empty
exactly on the validation no-op. The external call happens between the
fourth and fifth entries. -/
def sendTrace (api : List ReqPart → Except String String) (s : AppState) :
    List AppState :=
  if jsTrim s.input = "" ∧ s.images = [] then []
  else
    let userMessage : Message :=
      { role := Role.user, text := s.input, images := s.images }
    let s1 : AppState := { s with messages := s.messages ++ [userMessage] }
    let s2 : AppState := { s1 with input := "" }
    let s3 : AppState := { s2 with images := [] }
    let s4 : AppState := { s3 with loading := true }
    let s5 : AppState :=
      match api (buildParts userMessage.text userMessage.images) with
      | Except.ok reply =>
          { s4 with messages := s4.messages ++
              [{ role := Role.bot, text := reply, images := [] }] }
      | Except.error _ =>
          { s4 with messages := s4.messages ++
              [{ role := Role.bot, text := failureMessage, images := [] }] }
    let s6 : AppState := { s5 with loading := false }
    [s1, s2, s3, s4, s5, s6]

/-- The `handleImages` handler of `App.jsx`: replace the pending image
list with the selected files whose declared type starts with `image/` and
whose size is at most 5 * 1024 * 1024 bytes. -/
def handleImages (files : List DFile) (s : AppState) : AppState :=
  let valid := files.filter
    (fun f => f.type.startsWith "image/" && decide (f.size ≤ 5 * 1024 * 1024))
  { s with images := valid }

/-- The external client object: `new GoogleGenerativeAI(...)` merely
stores the credential it was given. -/
structure GoogleGenerativeAI where
  apiKey : Option String
deriving DecidableEq, Repr

/-- The module-level client setup of `App.jsx` (lines 7-9): the value of
`import.meta.env.VITE_GEMINI_API_KEY` (absent = `none`) is passed straight
to the constructor — no presence check, no diagnostic, construction is
total and never fails. -/
def mkGenAI (envKey : Option String) : GoogleGenerativeAI :=
  { apiKey := envKey }

/-! ## Claim theorems -/

/-- Claim C1, counterexample to the claim as stated: on a failed external
call the appended bot message's text is the source's literal
`"❌ Something went wrong. Please try again."`, which is not the string
`"Something went wrong. Please try again."` quoted by the claim. -/
theorem c1_counterexample :
    ((send (fun _ => Except.error "boom")
        { messages := [], input := "hi", images := [], loading := false }).1.messages.getLast?).map
        Message.text = some "❌ Something went wrong. Please try again." ∧
    "❌ Something went wrong. Please try again." ≠ "Something went wrong. Please try again." := by
  decide

/-- Claim C1, amended: for every submission whose external call rejects,
whatever the raw error value, the transcript gains the user message
followed by a bot message whose text is exactly the fixed constant
`failureMessage` ("❌ Something went wrong. Please try again.") — a
constant independent of the error, never the raw error itself. -/
theorem c1_fixed_failure_text (api : List ReqPart → Except String String)
    (s : AppState) (e : String)
    (hv : ¬(jsTrim s.input = "" ∧ s.images = []))
    (herr : api (buildParts s.input s.images) = Except.error e) :
    (send api s).1.messages =
      s.messages ++
        [{ role := Role.user, text := s.input, images := s.images },
         { role := Role.bot, text := failureMessage, images := [] }] := by
  simp [send, hv, herr]

/-- Claim C1 witness: concrete failing submission, bot text is the fixed
failure constant. -/
theorem c1_fixed_failure_text_witness :
    (¬(jsTrim "hi" = "" ∧ ([] : List DFile) = [])) ∧
    (send (fun _ => Except.error "boom")
        { messages := [], input := "hi", images := [], loading := false }).1.messages =
      [] ++
        [{ role := Role.user, text := "hi", images := [] },
         { role := Role.bot, text := failureMessage, images := [] }] :=
  ⟨by decide,
   c1_fixed_failure_text (fun _ => Except.error "boom")
     { messages := [], input := "hi", images := [], loading := false } "boom"
     (by decide) rfl⟩

/-- Claim C2: a submission with whitespace-only (or empty) text and no
pending images is a complete no-op — the state is unchanged (no message
appended) and the dispatched-requests list is empty (no external call). -/
theorem c2_noop_on_blank_input (api : List ReqPart → Except String String)
    (s : AppState) (h1 : jsTrim s.input = "") (h2 : s.images = []) :
    send api s = (s, []) := by
  simp [send, h1, h2]

/-- Claim C2 witness: whitespace-only input, no images, concrete state —
`send` returns the state unchanged and makes no call. -/
theorem c2_noop_on_blank_input_witness :
    (jsTrim "  " = "" ∧ (([] : List DFile) = [])) ∧
    send (fun _ => Except.ok "ok")
        { messages := [], input := "  ", images := [], loading := false } =
      ({ messages := [], input := "  ", images := [], loading := false }, []) :=
  ⟨⟨by decide, rfl⟩,
   c2_noop_on_blank_input (fun _ => Except.ok "ok")
     { messages := [], input := "  ", images := [], loading := false } (by decide) rfl⟩

/-- Claim C3, counterexample to the claim as stated: the input `" "` is a
non-empty string and the image list is empty, yet the submission is the
validation no-op — zero messages are appended, not one user and one bot
message. -/
theorem c3_counterexample :
    " " ≠ "" ∧
    (send (fun _ => Except.ok "reply")
        { messages := [], input := " ", images := [], loading := false }).1.messages = [] := by
  decide

/-- Claim C3, amended: for every submission whose text is non-blank (its
trim is non-empty) and whose image list is empty, exactly one user message
and then exactly one bot message are appended, in that order, whether the
external call succeeds or fails. -/
theorem c3_two_messages (api : List ReqPart → Except String String)
    (s : AppState) (h1 : jsTrim s.input ≠ "") (h2 : s.images = []) :
    ∃ b : Message, b.role = Role.bot ∧
      (send api s).1.messages =
        s.messages ++
          [{ role := Role.user, text := s.input, images := s.images }, b] := by
  have hv : ¬(jsTrim s.input = "" ∧ s.images = []) := fun h => h1 h.1
  cases hr : api (buildParts s.input s.images) with
  | ok reply =>
      exact ⟨{ role := Role.bot, text := reply, images := [] }, rfl,
        by simp [send, hv, hr]⟩
  | error e =>
      exact ⟨{ role := Role.bot, text := failureMessage, images := [] }, rfl,
        by simp [send, hv, hr]⟩

/-- Claim C3 witness: concrete non-blank submission appends the user
message then a bot message. -/
theorem c3_two_messages_witness :
    (jsTrim "hi" ≠ "" ∧ (([] : List DFile) = [])) ∧
    ∃ b : Message, b.role = Role.bot ∧
      (send (fun _ => Except.ok "yo")
          { messages := [], input := "hi", images := [], loading := false }).1.messages =
        [] ++ [{ role := Role.user, text := "hi", images := [] }, b] :=
  ⟨⟨by decide, rfl⟩,
   c3_two_messages (fun _ => Except.ok "yo")
     { messages := [], input := "hi", images := [], loading := false } (by decide) rfl⟩

/-- Claim C4: for a submission with at least one image and empty text, the
text part of the payload carries the placeholder `"Prescription uploaded"`
in the user-message slot, not an empty segment. -/
theorem c4_placeholder_on_empty_text (images : List DFile) (h : images ≠ []) :
    userSegment "" = "Prescription uploaded" ∧
    (buildParts "" images).head? =
      some (ReqPart.text (promptIntro ++ "Prescription uploaded" ++ "\n")) := by
  refine ⟨rfl, ?_⟩
  cases images with
  | nil => exact absurd rfl h
  | cons img rest => simp [buildParts, promptText, userSegment]

/-- Claim C4 witness: one concrete image, empty text — the payload's text
part uses the placeholder. -/
theorem c4_placeholder_on_empty_text_witness :
    (([⟨"image/png", 3, [1, 2, 3]⟩] : List DFile) ≠ []) ∧
    (userSegment "" = "Prescription uploaded" ∧
      (buildParts "" [⟨"image/png", 3, [1, 2, 3]⟩]).head? =
        some (ReqPart.text (promptIntro ++ "Prescription uploaded" ++ "\n"))) :=
  ⟨by decide, c4_placeholder_on_empty_text [⟨"image/png", 3, [1, 2, 3]⟩] (by decide)⟩

/-- Claim C5: for every non-empty image list, the payload is exactly the
text part plus one inline-binary part — the base64 of the FIRST image with
that image's declared media type; the payload is identical to the one for
the first image alone, so images after the first are never encoded or
sent, and the inline-part count is exactly one. -/
theorem c5_only_first_image_encoded (t : String) (img : DFile) (rest : List DFile) :
    buildParts t (img :: rest) =
      [ReqPart.text (promptText t), ReqPart.inlineData (fileToBase64 img) img.type] ∧
    buildParts t (img :: rest) = buildParts t [img] ∧
    ((buildParts t (img :: rest)).filter ReqPart.isInline).length = 1 := by
  refine ⟨rfl, rfl, rfl⟩

/-- Claim C6: a selected file ends up in the pending image list if and
only if it was among the selected files, its declared type starts with
`image/`, and its size is at most 5 * 1024 * 1024 bytes. -/
theorem c6_image_filter_mem (files : List DFile) (s : AppState) (f : DFile) :
    f ∈ (handleImages files s).images ↔
      f ∈ files ∧ f.type.startsWith "image/" = true ∧ f.size ≤ 5 * 1024 * 1024 := by
  simp [handleImages, List.mem_filter, and_assoc]

/-- Claim C7: starting from an idle state, the busy flag ends false on
every code path of `send` (no-op, success, failure); on a validated
submission the per-update trace shows the flag false through the
synchronous setup, true while the external call is in flight and at the
bot-message append, and false again at the final update. -/
theorem c7_busy_flag (api : List ReqPart → Except String String)
    (s : AppState) (h : s.loading = false) :
    (send api s).1.loading = false ∧
      (¬(jsTrim s.input = "" ∧ s.images = []) →
        (sendTrace api s).map AppState.loading =
          [false, false, false, true, true, false]) := by
  by_cases hc : jsTrim s.input = "" ∧ s.images = []
  · refine ⟨by simp [send, hc, h], fun hn => absurd hc hn⟩
  · refine ⟨?_, fun _ => ?_⟩
    · cases hr : api (buildParts s.input s.images) <;> simp [send, hc, hr]
    · cases hr : api (buildParts s.input s.images) <;> simp [sendTrace, hc, hr, h]

/-- Claim C7 witness: concrete successful submission from an idle state —
final flag false, trace pattern as stated. -/
theorem c7_busy_flag_witness :
    (({ messages := [], input := "hi", images := [], loading := false } : AppState).loading
        = false) ∧
    ((send (fun _ => Except.ok "yo")
        { messages := [], input := "hi", images := [], loading := false }).1.loading = false ∧
      (¬(jsTrim "hi" = "" ∧ ([] : List DFile) = []) →
        (sendTrace (fun _ => Except.ok "yo")
            { messages := [], input := "hi", images := [], loading := false }).map
            AppState.loading = [false, false, false, true, true, false])) :=
  ⟨rfl,
   c7_busy_flag (fun _ => Except.ok "yo")
     { messages := [], input := "hi", images := [], loading := false } rfl⟩

/-- Claim C8, evidence for the code bug: with the credential absent
(`none`), the module-level setup completes normally — `mkGenAI none` just
stores `none`, no failure path and no diagnostic exists — and the missing
key only surfaces on a later submission, as the rejected external call
collapsed to the generic failure message. -/
theorem c8_no_fail_fast_evidence :
    mkGenAI none = { apiKey := none } ∧
    (send (fun _ => Except.error "API key not valid")
        { messages := [], input := "hello", images := [], loading := false }).1.messages =
      [{ role := Role.user, text := "hello", images := [] },
       { role := Role.bot, text := failureMessage, images := [] }] :=
  ⟨rfl, by decide⟩

/-- Claim C9: a submission whose text is whitespace-only but non-empty,
with a non-empty image list, proceeds (one external call is made), and the
payload's user segment is the literal whitespace text — not the
placeholder, which substitutes only for the exactly-empty string. -/
theorem c9_whitespace_text_literal (api : List ReqPart → Except String String)
    (s : AppState)
    (h1 : jsTrim s.input = "") (h2 : s.input ≠ "") (h3 : s.images ≠ []) :
    (send api s).2 = [buildParts s.input s.images] ∧
    userSegment s.input = s.input ∧
    s.input ≠ "Prescription uploaded" ∧
    (buildParts s.input s.images).head? =
      some (ReqPart.text (promptIntro ++ s.input ++ "\n")) := by
  have hv : ¬(jsTrim s.input = "" ∧ s.images = []) := fun h => h3 h.2
  refine ⟨?_, ?_, ?_, ?_⟩
  · cases hr : api (buildParts s.input s.images) <;> simp [send, hv, hr]
  · simp [userSegment, h2]
  · intro heq
    rw [heq] at h1
    exact absurd h1 (by decide)
  · obtain ⟨img, rest, himg⟩ := List.exists_cons_of_ne_nil h3
    rw [himg]
    simp [buildParts, promptText, userSegment, h2]

/-- Claim C9 witness: input `" "` with one image — the call is made and
the text part carries the literal space. -/
theorem c9_whitespace_text_literal_witness :
    (jsTrim " " = "" ∧ " " ≠ "" ∧
      ([⟨"image/png", 3, [0, 1, 2]⟩] : List DFile) ≠ []) ∧
    ((send (fun _ => Except.ok "r")
        { messages := [], input := " ",
          images := [⟨"image/png", 3, [0, 1, 2]⟩], loading := false }).2 =
      [buildParts " " [⟨"image/png", 3, [0, 1, 2]⟩]] ∧
    userSegment " " = " " ∧
    " " ≠ "Prescription uploaded" ∧
    (buildParts " " [⟨"image/png", 3, [0, 1, 2]⟩]).head? =
      some (ReqPart.text (promptIntro ++ " " ++ "\n"))) :=
  ⟨⟨by decide, by decide, by decide⟩,
   c9_whitespace_text_literal (fun _ => Except.ok "r")
     { messages := [], input := " ",
       images := [⟨"image/png", 3, [0, 1, 2]⟩], loading := false }
     (by decide) (by decide) (by decide)⟩

/-- Claim C10: on every validated submission the pending input text and
image list are cleared before the external call (the trace state at the
call boundary has empty input and images) and stay cleared in the final
state on every outcome, while the appended user message retains the full
original text and image list. -/
theorem c10_inputs_cleared (api : List ReqPart → Except String String)
    (s : AppState) (hv : ¬(jsTrim s.input = "" ∧ s.images = [])) :
    (send api s).1.input = "" ∧ (send api s).1.images = [] ∧
    (sendTrace api s)[3]? =
      some { messages := s.messages ++
               [{ role := Role.user, text := s.input, images := s.images }],
             input := "", images := [], loading := true } ∧
    ∃ b : Message, b.role = Role.bot ∧
      (send api s).1.messages =
        s.messages ++
          [{ role := Role.user, text := s.input, images := s.images }, b] := by
  refine ⟨?_, ?_, ?_, ?_⟩
  · cases hr : api (buildParts s.input s.images) <;> simp [send, hv, hr]
  · cases hr : api (buildParts s.input s.images) <;> simp [send, hv, hr]
  · cases hr : api (buildParts s.input s.images) <;> simp [sendTrace, hv, hr]
  · cases hr : api (buildParts s.input s.images) with
    | ok reply =>
        exact ⟨{ role := Role.bot, text := reply, images := [] }, rfl,
          by simp [send, hv, hr]⟩
    | error e =>
        exact ⟨{ role := Role.bot, text := failureMessage, images := [] }, rfl,
          by simp [send, hv, hr]⟩

/-- Claim C10 witness: concrete submission — pending input and images end
cleared, the pre-call trace state already has them cleared, and the user
message keeps the original text. -/
theorem c10_inputs_cleared_witness :
    (¬(jsTrim "x" = "" ∧ ([] : List DFile) = [])) ∧
    ((send (fun _ => Except.ok "done")
        { messages := [], input := "x", images := [], loading := false }).1.input = "" ∧
    (send (fun _ => Except.ok "done")
        { messages := [], input := "x", images := [], loading := false }).1.images = [] ∧
    (sendTrace (fun _ => Except.ok "done")
        { messages := [], input := "x", images := [], loading := false })[3]? =
      some { messages := [] ++ [{ role := Role.user, text := "x", images := [] }],
             input := "", images := [], loading := true } ∧
    ∃ b : Message, b.role = Role.bot ∧
      (send (fun _ => Except.ok "done")
          { messages := [], input := "x", images := [], loading := false }).1.messages =
        [] ++ [{ role := Role.user, text := "x", images := [] }, b]) :=
  ⟨by decide,
   c10_inputs_cleared (fun _ => Except.ok "done")
     { messages := [], input := "x", images := [], loading := false } (by decide)⟩
